import Mathlib

/-!
Shallow embedding of the payment-standard resolution engine and the
affordability filter of `src/payment_standards.py` and `src/search_utils.py`.

ZIP codes, county keys, tier letters and bedroom-category keys are strings,
as in the source.  Python dict literals are embedded as association lists
looked up with `List.lookup` (first match); every table in the source has
pairwise-distinct keys, so this coincides with Python dict semantics
(last-wins on duplicates).  Python `str.strip` / `str.lower` are embedded as
character-list operations `pyStrip` / `pyLower`; Python's versions also
handle non-ASCII whitespace / letters, which no table entry and no branch
condition in the source contains.  Python `str.isdigit` is embedded as
`Char.isDigit` on every character (ASCII digits); Python additionally
accepts non-ASCII digit characters, for which both the 5-digit branch and
the town branch of `resolve_location` return `[]`, so the two readings give
equal results on every input.
-/

/-- Python `str.strip` on the character list: drop leading whitespace. -/
def ltrimChars (l : List Char) : List Char := l.dropWhile Char.isWhitespace

/-- Python `str.strip` on the character list: drop trailing whitespace. -/
def rtrimChars (l : List Char) : List Char := (ltrimChars l.reverse).reverse

/-- Python `str.strip()`: remove leading and trailing whitespace. -/
def pyStrip (s : String) : String := ⟨rtrimChars (ltrimChars s.data)⟩

/-- Python `str.lower()`: lower-case every character. -/
def pyLower (s : String) : String := ⟨s.data.map Char.toLower⟩

/-- Python `str.isdigit()` (ASCII reading, see module docstring). -/
def pyIsDigit (s : String) : Bool := s.data ≠ [] && s.data.all Char.isDigit

def COOK_RANGE_AMOUNTS : List (String × List (String × Nat)) := [
  ("A", [("studio", 1040), ("1br", 1145), ("2br", 1310), ("3br", 1660), ("4br", 1960)]),
  ("B", [("studio", 1095), ("1br", 1200), ("2br", 1360), ("3br", 1730), ("4br", 2050)]),
  ("C", [("studio", 1130), ("1br", 1220), ("2br", 1400), ("3br", 1760), ("4br", 2090)]),
  ("D", [("studio", 1150), ("1br", 1240), ("2br", 1420), ("3br", 1795), ("4br", 2135)]),
  ("E", [("studio", 1180), ("1br", 1270), ("2br", 1460), ("3br", 1830), ("4br", 2200)]),
  ("F", [("studio", 1210), ("1br", 1300), ("2br", 1495), ("3br", 1895), ("4br", 2255)]),
  ("G", [("studio", 1250), ("1br", 1350), ("2br", 1530), ("3br", 1960), ("4br", 2340)]),
  ("H", [("studio", 1275), ("1br", 1380), ("2br", 1575), ("3br", 2000), ("4br", 2375)]),
  ("I", [("studio", 1300), ("1br", 1400), ("2br", 1600), ("3br", 2050), ("4br", 2440)]),
  ("J", [("studio", 1325), ("1br", 1435), ("2br", 1640), ("3br", 2095), ("4br", 2475)]),
  ("K", [("studio", 1350), ("1br", 1460), ("2br", 1670), ("3br", 2120), ("4br", 2505)]),
  ("L", [("studio", 1370), ("1br", 1480), ("2br", 1690), ("3br", 2140), ("4br", 2530)]),
  ("M", [("studio", 1405), ("1br", 1500), ("2br", 1725), ("3br", 2195), ("4br", 2590)]),
  ("N", [("studio", 1450), ("1br", 1555), ("2br", 1780), ("3br", 2270), ("4br", 2685)]),
  ("O", [("studio", 1485), ("1br", 1590), ("2br", 1820), ("3br", 2305), ("4br", 2740)]),
  ("P", [("studio", 1525), ("1br", 1640), ("2br", 1870), ("3br", 2375), ("4br", 2830)]),
  ("Q", [("studio", 1585), ("1br", 1680), ("2br", 1930), ("3br", 2430), ("4br", 2930)]),
  ("R", [("studio", 1620), ("1br", 1720), ("2br", 1975), ("3br", 2505), ("4br", 3025)]),
  ("S", [("studio", 1670), ("1br", 1775), ("2br", 2040), ("3br", 2600), ("4br", 3090)]),
  ("T", [("studio", 1715), ("1br", 1840), ("2br", 2090), ("3br", 2660), ("4br", 3185)]),
  ("U", [("studio", 1760), ("1br", 1880), ("2br", 2140), ("3br", 2735), ("4br", 3250)]),
  ("V", [("studio", 1800), ("1br", 1935), ("2br", 2195), ("3br", 2800), ("4br", 3330)]),
  ("W", [("studio", 1870), ("1br", 2000), ("2br", 2280), ("3br", 2900), ("4br", 3400)]),
  ("X", [("studio", 1950), ("1br", 2100), ("2br", 2350), ("3br", 2990), ("4br", 3540)]),
  ("Y", [("studio", 2000), ("1br", 2180), ("2br", 2440), ("3br", 3170), ("4br", 3650)]),
  ("Z", [("studio", 2035), ("1br", 2245), ("2br", 2570), ("3br", 3200), ("4br", 3800)])
]

def COOK_ZIP_TO_RANGE : List (String × String) := [
  ("60803", "C"), ("60501", "A"), ("60004", "T"), ("60005", "O"), ("60006", "L"),
  ("60010", "Z"), ("60011", "M"), ("60103", "W"), ("60133", "P"), ("60455", "B"),
  ("60458", "H"), ("60459", "I"), ("60499", "L"), ("60638", "F"), ("60104", "F"),
  ("60163", "C"), ("60402", "H"), ("60406", "A"), ("60153", "E"), ("60155", "D"),
  ("60513", "F"), ("60089", "X"), ("60633", "D"), ("60527", "U"), ("60409", "D"),
  ("60643", "H"), ("60827", "C"), ("60411", "C"), ("60412", "L"), ("60415", "D"),
  ("60478", "T"), ("60525", "J"), ("60418", "I"), ("60445", "E"), ("60141", "A"),
  ("60067", "S"), ("60169", "Q"), ("60192", "Z"), ("60195", "S"), ("60456", "K"),
  ("60422", "Z"), ("60430", "K"), ("60453", "H"), ("60454", "L"), ("60457", "C"),
  ("60461", "Z"), ("60477", "M"), ("60487", "K"), ("60438", "F"), ("60439", "J"),
  ("60462", "N"), ("60467", "V"), ("60074", "N"), ("60078", "L"), ("60463", "U"),
  ("60428", "R"), ("60465", "G"), ("60464", "Y"), ("60068", "Q"), ("60426", "C"),
  ("60161", "L"), ("60164", "B"), ("60471", "I"), ("60165", "F"), ("60655", "I"),
  ("60546", "H"), ("60472", "G"), ("60056", "O"), ("60714", "I"), ("60656", "M"),
  ("60706", "G"), ("60062", "W"), ("60065", "L"), ("60093", "Y"), ("60452", "G"),
  ("60107", "X"), ("60476", "F"), ("60466", "N"), ("60484", "N"), ("60154", "T"),
  ("60558", "Z"), ("60469", "I"), ("60070", "J"), ("60480", "M"), ("60305", "N"),
  ("60171", "G"), ("60482", "E"), ("60015", "Z"), ("60016", "N"), ("60017", "L"),
  ("60018", "E"), ("60007", "P"), ("60009", "L"), ("60707", "I"), ("60201", "X"),
  ("60202", "T"), ("60203", "Y"), ("60204", "L"), ("60805", "J"), ("60130", "I"),
  ("60712", "Z"), ("60131", "B"), ("60022", "Y"), ("60025", "R"), ("60026", "X"),
  ("60425", "U"), ("60029", "U"), ("60429", "P"), ("60162", "N"), ("60008", "Q"),
  ("60043", "Z"), ("60053", "Z"), ("60076", "P"), ("60077", "N"), ("60090", "P"),
  ("60091", "Z"), ("60120", "G"), ("60126", "V"), ("60159", "L"), ("60160", "F"),
  ("60168", "L"), ("60172", "S"), ("60173", "W"), ("60176", "G"), ("60193", "U"),
  ("60194", "V"), ("60301", "N"), ("60302", "N"), ("60304", "N"), ("60419", "Q"),
  ("60423", "O"), ("60443", "Q"), ("60473", "V"), ("60475", "A"), ("60521", "Z"),
  ("60526", "K"), ("60534", "D"), ("60601", "J"), ("60602", "J"), ("60603", "J"),
  ("60604", "J"), ("60605", "J"), ("60606", "J"), ("60607", "J"), ("60608", "H"),
  ("60609", "F"), ("60610", "Z"), ("60611", "Z"), ("60612", "L"), ("60613", "H"),
  ("60614", "Z"), ("60615", "D"), ("60616", "G"), ("60617", "B"), ("60618", "L"),
  ("60619", "C"), ("60620", "D"), ("60621", "B"), ("60622", "N"), ("60623", "F"),
  ("60624", "D"), ("60625", "L"), ("60626", "K"), ("60628", "C"), ("60629", "F"),
  ("60630", "K"), ("60631", "M"), ("60632", "F"), ("60634", "L"), ("60636", "D"),
  ("60637", "E"), ("60639", "H"), ("60640", "M"), ("60641", "L"), ("60642", "N"),
  ("60644", "E"), ("60645", "M"), ("60646", "L"), ("60647", "M"), ("60649", "C"),
  ("60651", "F"), ("60652", "G"), ("60653", "D"), ("60654", "N"), ("60657", "Q"),
  ("60659", "K"), ("60660", "L"), ("60661", "L")
]

def COOK_TOWN_TO_ZIPS : List (String × List String) := [
  ("Alsip", ["60803"]),
  ("Arlington Heights", ["60004", "60005", "60006"]),
  ("Barrington", ["60010", "60011"]),
  ("Barrington Hills", ["60010"]),
  ("Bartlett", ["60103"]),
  ("Bedford Park", ["60455", "60458", "60459"]),
  ("Bellwood", ["60104"]),
  ("Berkeley", ["60163"]),
  ("Berwyn", ["60402"]),
  ("Blue Island", ["60406"]),
  ("Bridgeview", ["60455"]),
  ("Broadview", ["60153", "60155"]),
  ("Brookfield", ["60513"]),
  ("Buffalo Grove", ["60089"]),
  ("Burbank", ["60459"]),
  ("Burnham", ["60633"]),
  ("Burr Ridge", ["60527"]),
  ("Calumet City", ["60409"]),
  ("Calumet Park", ["60643", "60827"]),
  ("Chicago", ["60601", "60602", "60603", "60604", "60605", "60606", "60607", "60608", "60609", "60610", "60611", "60612", "60613", "60614", "60615", "60616", "60617", "60618", "60619", "60620", "60621", "60622", "60623", "60624", "60625", "60626", "60628", "60629", "60630", "60631", "60632", "60633", "60634", "60636", "60637", "60638", "60639", "60640", "60641", "60642", "60643", "60644", "60645", "60646", "60647", "60649", "60651", "60652", "60653", "60654", "60655", "60656", "60657", "60659", "60660", "60661"]),
  ("Chicago Heights", ["60411", "60412"]),
  ("Chicago Ridge", ["60415"]),
  ("Country Club Hills", ["60478"]),
  ("Countryside", ["60525"]),
  ("Crestwood", ["60418", "60445"]),
  ("Deer Park", ["60010"]),
  ("Deerfield", ["60015"]),
  ("Des Plaines", ["60016", "60017", "60018"]),
  ("Dixmoor", ["60406", "60426"]),
  ("Dolton", ["60419", "60429"]),
  ("East Hazel Crest", ["60429"]),
  ("Elk Grove Village", ["60007"]),
  ("Elmwood Park", ["60707"]),
  ("Evanston", ["60201", "60202", "60203", "60204"]),
  ("Evergreen Park", ["60805"]),
  ("Flossmoor", ["60422"]),
  ("Forest Park", ["60130"]),
  ("Forest View", ["60155"]),
  ("Franklin Park", ["60131"]),
  ("Glencoe", ["60022"]),
  ("Glenview", ["60025", "60026"]),
  ("Glenwood", ["60425"]),
  ("Golf", ["60029"]),
  ("Hanover Park", ["60133"]),
  ("Harvey", ["60426"]),
  ("Harwood Heights", ["60706"]),
  ("Hazel Crest", ["60429"]),
  ("Hickory Hills", ["60457"]),
  ("Hillside", ["60162"]),
  ("Hines", ["60141"]),
  ("Hodgkins", ["60525"]),
  ("Hoffman Estates", ["60169", "60192", "60195"]),
  ("Hometown", ["60456"]),
  ("Homewood", ["60430"]),
  ("Indian Head Park", ["60525"]),
  ("Inverness", ["60010", "60067"]),
  ("Justice", ["60458"]),
  ("Kenilworth", ["60043"]),
  ("La Grange", ["60525"]),
  ("La Grange Highlands", ["60525"]),
  ("La Grange Park", ["60526"]),
  ("Lansing", ["60438"]),
  ("Lemont", ["60439"]),
  ("Lincolnwood", ["60712"]),
  ("Lynwood", ["60411"]),
  ("Lyons", ["60534"]),
  ("Markham", ["60428"]),
  ("Matteson", ["60443"]),
  ("Maywood", ["60153"]),
  ("McCook", ["60525"]),
  ("Melrose Park", ["60160", "60164", "60165"]),
  ("Merrionette Park", ["60655"]),
  ("Midlothian", ["60445"]),
  ("Morton Grove", ["60053"]),
  ("Mount Prospect", ["60056"]),
  ("Niles", ["60714"]),
  ("Norridge", ["60706"]),
  ("North Riverside", ["60546"]),
  ("Northbrook", ["60062", "60065"]),
  ("Northfield", ["60093"]),
  ("Northlake", ["60164"]),
  ("Oak Forest", ["60452"]),
  ("Oak Lawn", ["60453", "60454", "60455", "60456", "60457", "60458", "60459"]),
  ("Oak Park", ["60301", "60302", "60304", "60305"]),
  ("Olympia Fields", ["60461"]),
  ("Orland Hills", ["60477", "60487"]),
  ("Orland Park", ["60462", "60467"]),
  ("Palatine", ["60067", "60074", "60078"]),
  ("Palos Heights", ["60463"]),
  ("Palos Hills", ["60465"]),
  ("Palos Park", ["60464"]),
  ("Park Forest", ["60466"]),
  ("Park Ridge", ["60068"]),
  ("Phoenix", ["60426"]),
  ("Posen", ["60469"]),
  ("Prospect Heights", ["60070"]),
  ("Richton Park", ["60471"]),
  ("River Forest", ["60305"]),
  ("River Grove", ["60171"]),
  ("Riverdale", ["60827"]),
  ("Riverside", ["60546"]),
  ("Robbins", ["60472"]),
  ("Rolling Meadows", ["60008"]),
  ("Rosemont", ["60018"]),
  ("Sauk Village", ["60411"]),
  ("Schaumburg", ["60159", "60168", "60173", "60193", "60194", "60195"]),
  ("Schiller Park", ["60176"]),
  ("Skokie", ["60076", "60077"]),
  ("South Barrington", ["60010"]),
  ("South Chicago Heights", ["60411"]),
  ("South Holland", ["60473"]),
  ("Steger", ["60475"]),
  ("Stickney", ["60402"]),
  ("Stone Park", ["60165"]),
  ("Streamwood", ["60107"]),
  ("Summit", ["60501"]),
  ("Thornton", ["60476"]),
  ("Tinley Park", ["60477", "60478", "60487"]),
  ("University Park", ["60466", "60484"]),
  ("Westchester", ["60154"]),
  ("Western Springs", ["60558"]),
  ("Wheeling", ["60090"]),
  ("Willow Springs", ["60480"]),
  ("Wilmette", ["60091"]),
  ("Winnetka", ["60093"]),
  ("Worth", ["60482"])
]

def DUPAGE_ZIP_AMOUNTS : List (String × List (String × Nat)) := [
  ("60101", [("studio", 1310), ("1br", 1400), ("2br", 1580), ("3br", 2030), ("4br", 2380)]),
  ("60103", [("studio", 1560), ("1br", 1670), ("2br", 1880), ("3br", 2410), ("4br", 2840)]),
  ("60106", [("studio", 1410), ("1br", 1510), ("2br", 1700), ("3br", 2190), ("4br", 2570)]),
  ("60108", [("studio", 1560), ("1br", 1670), ("2br", 1880), ("3br", 2410), ("4br", 2840)]),
  ("60116", [("studio", 1760), ("1br", 1890), ("2br", 2130), ("3br", 2740), ("4br", 3210)]),
  ("60117", [("studio", 1560), ("1br", 1670), ("2br", 1880), ("3br", 2410), ("4br", 2840)]),
  ("60126", [("studio", 1910), ("1br", 2050), ("2br", 2310), ("3br", 2970), ("4br", 3490)]),
  ("60137", [("studio", 1340), ("1br", 1430), ("2br", 1620), ("3br", 2080), ("4br", 2440)]),
  ("60138", [("studio", 1340), ("1br", 1430), ("2br", 1620), ("3br", 2080), ("4br", 2440)]),
  ("60139", [("studio", 1560), ("1br", 1670), ("2br", 1880), ("3br", 2410), ("4br", 2840)]),
  ("60143", [("studio", 1610), ("1br", 1720), ("2br", 1940), ("3br", 2490), ("4br", 2930)]),
  ("60148", [("studio", 1780), ("1br", 1900), ("2br", 2150), ("3br", 2760), ("4br", 3240)]),
  ("60157", [("studio", 1780), ("1br", 1900), ("2br", 2150), ("3br", 2760), ("4br", 3240)]),
  ("60181", [("studio", 1910), ("1br", 2050), ("2br", 2310), ("3br", 2970), ("4br", 3490)]),
  ("60185", [("studio", 1660), ("1br", 1780), ("2br", 2010), ("3br", 2580), ("4br", 3030)]),
  ("60187", [("studio", 1760), ("1br", 1890), ("2br", 2130), ("3br", 2740), ("4br", 3210)]),
  ("60188", [("studio", 1560), ("1br", 1670), ("2br", 1880), ("3br", 2410), ("4br", 2840)]),
  ("60189", [("studio", 1760), ("1br", 1890), ("2br", 2130), ("3br", 2740), ("4br", 3210)]),
  ("60190", [("studio", 1760), ("1br", 1890), ("2br", 2130), ("3br", 2740), ("4br", 3210)]),
  ("60191", [("studio", 1610), ("1br", 1720), ("2br", 1940), ("3br", 2490), ("4br", 2930)]),
  ("60199", [("studio", 1760), ("1br", 1890), ("2br", 2130), ("3br", 2740), ("4br", 3210)]),
  ("60502", [("studio", 1980), ("1br", 2120), ("2br", 2390), ("3br", 3070), ("4br", 3610)]),
  ("60504", [("studio", 2145), ("1br", 2310), ("2br", 2640), ("3br", 3366), ("4br", 3971)]),
  ("60514", [("studio", 1860), ("1br", 1990), ("2br", 2250), ("3br", 2890), ("4br", 3390)]),
  ("60515", [("studio", 1710), ("1br", 1830), ("2br", 2070), ("3br", 2660), ("4br", 3120)]),
  ("60516", [("studio", 1710), ("1br", 1830), ("2br", 2070), ("3br", 2660), ("4br", 3120)]),
  ("60517", [("studio", 1710), ("1br", 1830), ("2br", 2070), ("3br", 2660), ("4br", 3120)]),
  ("60519", [("studio", 1710), ("1br", 1830), ("2br", 2070), ("3br", 2660), ("4br", 3120)]),
  ("60521", [("studio", 2060), ("1br", 2210), ("2br", 2490), ("3br", 3200), ("4br", 3760)]),
  ("60523", [("studio", 2270), ("1br", 2430), ("2br", 2740), ("3br", 3520), ("4br", 4130)]),
  ("60527", [("studio", 1960), ("1br", 2100), ("2br", 2370), ("3br", 3040), ("4br", 3570)]),
  ("60532", [("studio", 1760), ("1br", 1890), ("2br", 2130), ("3br", 2740), ("4br", 3210)]),
  ("60540", [("studio", 1860), ("1br", 1990), ("2br", 2250), ("3br", 2890), ("4br", 3390)]),
  ("60555", [("studio", 1760), ("1br", 1890), ("2br", 2130), ("3br", 2740), ("4br", 3210)]),
  ("60559", [("studio", 1760), ("1br", 1890), ("2br", 2130), ("3br", 2740), ("4br", 3210)]),
  ("60561", [("studio", 1710), ("1br", 1830), ("2br", 2070), ("3br", 2660), ("4br", 3120)]),
  ("60563", [("studio", 2000), ("1br", 2130), ("2br", 2410), ("3br", 3100), ("4br", 3640)]),
  ("60565", [("studio", 1860), ("1br", 1990), ("2br", 2250), ("3br", 2890), ("4br", 3390)])
]

def DUPAGE_TOWN_TO_ZIPS : List (String × List String) := [
  ("Addison", ["60101"]),
  ("Aurora", ["60502", "60504"]),
  ("Bartlett", ["60103"]),
  ("Bensenville", ["60106"]),
  ("Bloomingdale", ["60108", "60117"]),
  ("Carol Stream", ["60116", "60188", "60199"]),
  ("Clarendon Hills", ["60514"]),
  ("Darien", ["60561"]),
  ("Downers Grove", ["60515", "60516"]),
  ("Elmhurst", ["60126"]),
  ("Glen Ellyn", ["60137", "60138"]),
  ("Glendale Heights", ["60139"]),
  ("Hinsdale", ["60521"]),
  ("Itasca", ["60143"]),
  ("Lisle", ["60532"]),
  ("Lombard", ["60148", "60157"]),
  ("Naperville", ["60540", "60563", "60565"]),
  ("Oak Brook", ["60523"]),
  ("Villa Park", ["60181"]),
  ("Warrenville", ["60555"]),
  ("West Chicago", ["60185"]),
  ("Westmont", ["60559"]),
  ("Wheaton", ["60187", "60189"]),
  ("Willowbrook", ["60527"]),
  ("Winfield", ["60190"]),
  ("Wood Dale", ["60191"]),
  ("Woodridge", ["60517"])
]

def WILL_ZIP_AMOUNTS : List (String × List (String × Nat)) := [
  ("60153", [("studio", 1386), ("1br", 1485), ("2br", 1672), ("3br", 2156), ("4br", 2486)]),
  ("60401", [("studio", 1287), ("1br", 1375), ("2br", 1551), ("3br", 2002), ("4br", 2310)]),
  ("60403", [("studio", 1540), ("1br", 1650), ("2br", 1859), ("3br", 2398), ("4br", 2772)]),
  ("60404", [("studio", 2189), ("1br", 2332), ("2br", 2629), ("3br", 3388), ("4br", 3916)]),
  ("60407", [("studio", 1320), ("1br", 1430), ("2br", 1749), ("3br", 2332), ("4br", 2629)]),
  ("60408", [("studio", 1375), ("1br", 1474), ("2br", 1661), ("3br", 2134), ("4br", 2475)]),
  ("60410", [("studio", 1837), ("1br", 1969), ("2br", 2310), ("3br", 3025), ("4br", 3465)]),
  ("60416", [("studio", 1089), ("1br", 1177), ("2br", 1540), ("3br", 2090), ("4br", 2321)]),
  ("60417", [("studio", 1430), ("1br", 1529), ("2br", 1727), ("3br", 2222), ("4br", 2574)]),
  ("60421", [("studio", 1265), ("1br", 1342), ("2br", 1518), ("3br", 1958), ("4br", 2266)]),
  ("60423", [("studio", 1683), ("1br", 1793), ("2br", 2024), ("3br", 2607), ("4br", 3014)]),
  ("60431", [("studio", 1650), ("1br", 1771), ("2br", 2068), ("3br", 2706), ("4br", 3047)]),
  ("60432", [("studio", 1430), ("1br", 1518), ("2br", 1716), ("3br", 2211), ("4br", 2552)]),
  ("60433", [("studio", 1452), ("1br", 1551), ("2br", 1749), ("3br", 2255), ("4br", 2607)]),
  ("60434", [("studio", 1606), ("1br", 1716), ("2br", 1936), ("3br", 2497), ("4br", 2882)]),
  ("60435", [("studio", 1485), ("1br", 1595), ("2br", 1793), ("3br", 2310), ("4br", 2673)]),
  ("60436", [("studio", 1518), ("1br", 1617), ("2br", 1826), ("3br", 2354), ("4br", 2717)]),
  ("60439", [("studio", 1419), ("1br", 1518), ("2br", 1705), ("3br", 2200), ("4br", 2541)]),
  ("60440", [("studio", 1881), ("1br", 2013), ("2br", 2266), ("3br", 2915), ("4br", 3377)]),
  ("60441", [("studio", 1716), ("1br", 1837), ("2br", 2068), ("3br", 2662), ("4br", 3080)]),
  ("60442", [("studio", 1265), ("1br", 1353), ("2br", 1529), ("3br", 1969), ("4br", 2277)]),
  ("60446", [("studio", 2112), ("1br", 2255), ("2br", 2541), ("3br", 3267), ("4br", 3784)]),
  ("60447", [("studio", 1430), ("1br", 1551), ("2br", 1969), ("3br", 2662), ("4br", 2948)]),
  ("60448", [("studio", 1694), ("1br", 1804), ("2br", 2035), ("3br", 2618), ("4br", 3036)]),
  ("60449", [("studio", 1375), ("1br", 1463), ("2br", 1650), ("3br", 2123), ("4br", 2453)]),
  ("60451", [("studio", 1485), ("1br", 1595), ("2br", 1793), ("3br", 2310), ("4br", 2673)]),
  ("60466", [("studio", 1650), ("1br", 1771), ("2br", 1991), ("3br", 2563), ("4br", 2970)]),
  ("60467", [("studio", 2134), ("1br", 2277), ("2br", 2563), ("3br", 3300), ("4br", 3817)]),
  ("60468", [("studio", 1210), ("1br", 1287), ("2br", 1463), ("3br", 1881), ("4br", 2167)]),
  ("60471", [("studio", 1518), ("1br", 1617), ("2br", 1826), ("3br", 2354), ("4br", 2717)]),
  ("60475", [("studio", 1166), ("1br", 1243), ("2br", 1397), ("3br", 1804), ("4br", 2079)]),
  ("60481", [("studio", 1177), ("1br", 1254), ("2br", 1419), ("3br", 1826), ("4br", 2112)]),
  ("60484", [("studio", 1683), ("1br", 1793), ("2br", 2024), ("3br", 2607), ("4br", 3014)]),
  ("60487", [("studio", 1606), ("1br", 1716), ("2br", 1936), ("3br", 2497), ("4br", 2882)]),
  ("60490", [("studio", 2442), ("1br", 2607), ("2br", 2937), ("3br", 3784), ("4br", 4378)]),
  ("60491", [("studio", 1892), ("1br", 2024), ("2br", 2277), ("3br", 2937), ("4br", 3388)]),
  ("60503", [("studio", 2167), ("1br", 2343), ("2br", 2750), ("3br", 3619), ("4br", 4048)]),
  ("60517", [("studio", 1716), ("1br", 1837), ("2br", 2068), ("3br", 2662), ("4br", 3080)]),
  ("60544", [("studio", 2123), ("1br", 2266), ("2br", 2563), ("3br", 3300), ("4br", 3806)]),
  ("60564", [("studio", 2442), ("1br", 2607), ("2br", 2937), ("3br", 3784), ("4br", 4378)]),
  ("60565", [("studio", 2079), ("1br", 2211), ("2br", 2497), ("3br", 3212), ("4br", 3718)]),
  ("60567", [("studio", 1793), ("1br", 1914), ("2br", 2156), ("3br", 2783), ("4br", 3212)]),
  ("60585", [("studio", 2387), ("1br", 2563), ("2br", 2937), ("3br", 3817), ("4br", 4345)]),
  ("60586", [("studio", 2321), ("1br", 2497), ("2br", 2860), ("3br", 3718), ("4br", 4235)])
]

def WILL_TOWN_TO_ZIPS : List (String × List String) := [
  ("Aurora", ["60503"]),
  ("Beecher", ["60401"]),
  ("Bolingbrook", ["60440", "60490"]),
  ("Braidwood", ["60408"]),
  ("Channahon", ["60410"]),
  ("Coal City", ["60416"]),
  ("Crest Hill", ["60403"]),
  ("Crete", ["60417"]),
  ("Elwood", ["60421"]),
  ("Frankfort", ["60423"]),
  ("Godley", ["60407"]),
  ("Homer Glen", ["60491"]),
  ("Joliet", ["60431", "60432", "60433", "60434", "60435", "60436"]),
  ("Lemont", ["60439"]),
  ("Lockport", ["60441"]),
  ("Manhattan", ["60442"]),
  ("Maywood", ["60153"]),
  ("Minooka", ["60447"]),
  ("Mokena", ["60448"]),
  ("Monee", ["60449"]),
  ("Naperville", ["60564", "60565", "60567"]),
  ("New Lenox", ["60451"]),
  ("Orland Park", ["60467"]),
  ("Park Forest", ["60466"]),
  ("Peotone", ["60468"]),
  ("Plainfield", ["60544", "60585", "60586"]),
  ("Richton Park", ["60471"]),
  ("Romeoville", ["60446"]),
  ("Shorewood", ["60404"]),
  ("Steger", ["60475"]),
  ("Tinley Park", ["60487"]),
  ("University Park", ["60484"]),
  ("Wilmington", ["60481"]),
  ("Woodridge", ["60517"])
]

def LAKE_ZIP_AMOUNTS : List (String × List (String × Nat)) := [
  ("60002", [("studio", 1250), ("1br", 1340), ("2br", 1510), ("3br", 1940), ("4br", 2280)]),
  ("60010", [("studio", 2190), ("1br", 2340), ("2br", 2670), ("3br", 3440), ("4br", 3980)]),
  ("60011", [("studio", 1470), ("1br", 1570), ("2br", 1770), ("3br", 2500), ("4br", 2800)]),
  ("60013", [("studio", 1450), ("1br", 1550), ("2br", 1750), ("3br", 2250), ("4br", 2619)]),
  ("60015", [("studio", 2190), ("1br", 2340), ("2br", 2640), ("3br", 3390), ("4br", 3980)]),
  ("60020", [("studio", 1370), ("1br", 1470), ("2br", 1660), ("3br", 2130), ("4br", 2500)]),
  ("60021", [("studio", 2000), ("1br", 2135), ("2br", 2405), ("3br", 3100), ("4br", 3590)]),
  ("60030", [("studio", 1630), ("1br", 1740), ("2br", 1970), ("3br", 2700), ("4br", 3020)]),
  ("60031", [("studio", 1690), ("1br", 1800), ("2br", 2030), ("3br", 2610), ("4br", 3020)]),
  ("60035", [("studio", 2070), ("1br", 2220), ("2br", 2530), ("3br", 3220), ("4br", 3810)]),
  ("60040", [("studio", 1860), ("1br", 2000), ("2br", 2240), ("3br", 2880), ("4br", 3340)]),
  ("60041", [("studio", 1190), ("1br", 1280), ("2br", 1450), ("3br", 1870), ("4br", 2165)]),
  ("60042", [("studio", 1685), ("1br", 1800), ("2br", 2025), ("3br", 2610), ("4br", 3045)]),
  ("60044", [("studio", 1600), ("1br", 1750), ("2br", 1900), ("3br", 2450), ("4br", 2900)]),
  ("60045", [("studio", 2220), ("1br", 2370), ("2br", 2670), ("3br", 3440), ("4br", 3980)]),
  ("60046", [("studio", 1690), ("1br", 1810), ("2br", 2040), ("3br", 2630), ("4br", 2750)]),
  ("60047", [("studio", 1970), ("1br", 2110), ("2br", 2390), ("3br", 3060), ("4br", 3600)]),
  ("60048", [("studio", 1710), ("1br", 1830), ("2br", 2070), ("3br", 2660), ("4br", 3120)]),
  ("60050", [("studio", 1425), ("1br", 1525), ("2br", 1750), ("3br", 2225), ("4br", 2600)]),
  ("60051", [("studio", 1775), ("1br", 1905), ("2br", 2170), ("3br", 2765), ("4br", 3270)]),
  ("60060", [("studio", 1660), ("1br", 1770), ("2br", 2000), ("3br", 2600), ("4br", 3020)]),
  ("60061", [("studio", 1900), ("1br", 2050), ("2br", 2310), ("3br", 2975), ("4br", 3480)]),
  ("60064", [("studio", 1190), ("1br", 1400), ("2br", 1715), ("3br", 2015), ("4br", 2400)]),
  ("60069", [("studio", 2000), ("1br", 2135), ("2br", 2405), ("3br", 3100), ("4br", 3585)]),
  ("60073", [("studio", 1590), ("1br", 1700), ("2br", 1920), ("3br", 2500), ("4br", 2900)]),
  ("60074", [("studio", 1425), ("1br", 1525), ("2br", 1715), ("3br", 2205), ("4br", 2550)]),
  ("60081", [("studio", 1375), ("1br", 1474), ("2br", 1661), ("3br", 2134), ("4br", 2475)]),
  ("60083", [("studio", 1730), ("1br", 1845), ("2br", 2100), ("3br", 2685), ("4br", 3160)]),
  ("60084", [("studio", 1370), ("1br", 1470), ("2br", 1660), ("3br", 2200), ("4br", 2500)]),
  ("60085", [("studio", 1280), ("1br", 1370), ("2br", 1540), ("3br", 1980), ("4br", 2290)]),
  ("60087", [("studio", 1350), ("1br", 1450), ("2br", 1630), ("3br", 2300), ("4br", 2500)]),
  ("60089", [("studio", 1990), ("1br", 2140), ("2br", 2440), ("3br", 3110), ("4br", 3680)]),
  ("60096", [("studio", 1250), ("1br", 1340), ("2br", 1510), ("3br", 1940), ("4br", 2260)]),
  ("60099", [("studio", 1280), ("1br", 1380), ("2br", 1570), ("3br", 2000), ("4br", 2370)])
]

def LAKE_TOWN_TO_ZIPS : List (String × List String) := [
  ("Antioch", ["60002"]),
  ("Barrington", ["60010", "60011"]),
  ("Buffalo Grove", ["60089"]),
  ("Cary", ["60013"]),
  ("Deerfield", ["60015"]),
  ("Fox Lake", ["60020"]),
  ("Fox River Grove", ["60021"]),
  ("Grayslake", ["60030"]),
  ("Gurnee", ["60031"]),
  ("Highland Park", ["60035"]),
  ("Highwood", ["60040"]),
  ("Ingleside", ["60041"]),
  ("Island Lake", ["60042"]),
  ("Lake Bluff", ["60044"]),
  ("Lake Forest", ["60045"]),
  ("Lake Villa", ["60046"]),
  ("Lake Zurich", ["60047"]),
  ("Libertyville", ["60048"]),
  ("Lincolnshire", ["60069"]),
  ("Long Grove", ["60047"]),
  ("McHenry", ["60050", "60051"]),
  ("Mundelein", ["60060"]),
  ("North Chicago", ["60064"]),
  ("Palatine", ["60074"]),
  ("Round Lake", ["60073"]),
  ("Spring Grove", ["60081"]),
  ("Vernon Hills", ["60061"]),
  ("Wadsworth", ["60083"]),
  ("Wauconda", ["60084"]),
  ("Waukegan", ["60085", "60087"]),
  ("Winthrop Harbor", ["60096"]),
  ("Zion", ["60099"])
]

/-- Lexicographic (code-point) comparison of character lists: the order
Python's `sorted` uses on strings. -/
def leChars : List Char → List Char → Bool
  | [], _ => true
  | _ :: _, [] => false
  | a :: as, b :: bs => if a < b then true else if b < a then false else leChars as bs

/-- The string order `get_all_zip_codes` sorts by. -/
def zip_le (a b : String) : Prop := leChars a.data b.data = true

instance : DecidableRel zip_le := fun a b => by unfold zip_le; infer_instance

/-- The bedroom-category key of `get_payment_standard`: `"studio"` for `0`
and `f"{bedrooms}br"` otherwise. -/
def bedroom_key (bedrooms : Nat) : String :=
  if bedrooms = 0 then "studio" else Nat.repr bedrooms ++ "br"

/-- `get_payment_standard` of `src/payment_standards.py` (lines 586-625):
county key is lower-cased, the ZIP is stripped, and the amount is looked
up through the county's table(s); `none` models Python `None`. -/
def get_payment_standard (county_key zip_code : String) (bedrooms : Nat) : Option Nat :=
  let county_key := pyLower county_key
  let zip_code := pyStrip zip_code
  let bedroom_key := bedroom_key bedrooms
  if county_key = "cook" then
    match COOK_ZIP_TO_RANGE.lookup zip_code with
    | none => none
    | some range_letter =>
      match COOK_RANGE_AMOUNTS.lookup range_letter with
      | none => none
      | some amounts => amounts.lookup bedroom_key
  else if county_key = "dupage" then
    match DUPAGE_ZIP_AMOUNTS.lookup zip_code with
    | none => none
    | some amounts => amounts.lookup bedroom_key
  else if county_key = "will" then
    match WILL_ZIP_AMOUNTS.lookup zip_code with
    | none => none
    | some amounts => amounts.lookup bedroom_key
  else if county_key = "lake" then
    match LAKE_ZIP_AMOUNTS.lookup zip_code with
    | none => none
    | some amounts => amounts.lookup bedroom_key
  else
    none

/-- `get_all_zip_codes` (lines 628-641): the sorted key list of the county's
ZIP index.  Python's `sorted` is a stable ascending sort; on the
pairwise-distinct keys it produces the unique `≤`-sorted permutation,
embedded as `List.insertionSort`. -/
def get_all_zip_codes (county_key : String) : List String :=
  let county_key := pyLower county_key
  if county_key = "cook" then
    (COOK_ZIP_TO_RANGE.map Prod.fst).insertionSort zip_le
  else if county_key = "dupage" then
    (DUPAGE_ZIP_AMOUNTS.map Prod.fst).insertionSort zip_le
  else if county_key = "will" then
    (WILL_ZIP_AMOUNTS.map Prod.fst).insertionSort zip_le
  else if county_key = "lake" then
    (LAKE_ZIP_AMOUNTS.map Prod.fst).insertionSort zip_le
  else
    []

/-- `is_valid_zip` (lines 644-646). -/
def is_valid_zip (county_key zip_code : String) : Bool :=
  pyStrip zip_code ∈ get_all_zip_codes county_key

/-- The town table `resolve_location` selects for a county key
(lines 702-711); `none` models the `else: return []` fall-through. -/
def town_map (county_key : String) : Option (List (String × List String)) :=
  if county_key = "cook" then some COOK_TOWN_TO_ZIPS
  else if county_key = "dupage" then some DUPAGE_TOWN_TO_ZIPS
  else if county_key = "will" then some WILL_TOWN_TO_ZIPS
  else if county_key = "lake" then some LAKE_TOWN_TO_ZIPS
  else none

/-- `resolve_location` (lines 681-718): strip the token; a 5-character
all-digit token is looked up as a ZIP; otherwise the first town whose
lower-cased name equals the lower-cased token supplies the ZIP list. -/
def resolve_location (county_key location : String) : List String :=
  let county_key := pyLower county_key
  let location := pyStrip location
  if location.length = 5 && pyIsDigit location then
    if is_valid_zip county_key location then [location] else []
  else
    match town_map county_key with
    | none => []
    | some m =>
      match m.find? (fun p => pyLower p.1 = pyLower location) with
      | some p => p.2
      | none => []

/-- A rental listing as consumed by `render_county_page` of
`src/search_utils.py`: only the fields the filtering logic reads.
`price` is the listing's nullable monthly price, `bedrooms` its nullable
bedroom count; `search_zip` and `payment_standard` model the
`"_search_zip"` / `"_payment_standard"` keys the page attaches. -/
structure Listing where
  price : Option Int
  bedrooms : Option Nat
  search_zip : String := ""
  payment_standard : Option Nat := none
deriving DecidableEq, Repr

/-- The annotation loop of `render_county_page` (lines 307-311): attach the
search ZIP and the payment standard at
`min(listing.get("bedrooms", 0) or 0, voucher_bedrooms)`. -/
def annotate (county_key zip_code : String) (voucher_bedrooms : Nat) (l : Listing) : Listing :=
  let listing_bedrooms := l.bedrooms.getD 0
  let effective_bedrooms := min listing_bedrooms voucher_bedrooms
  { l with search_zip := zip_code,
           payment_standard := get_payment_standard county_key zip_code effective_bedrooms }

/-- The bedroom-size filter (lines 321-325): applied only when
`search_bedrooms` is non-empty; keeps listings whose bedroom count
(null defaulting to 0) is one of the selected sizes. -/
def size_filter (search_bedrooms : List Nat) (ls : List Listing) : List Listing :=
  if search_bedrooms.isEmpty then ls
  else ls.filter (fun l => search_bedrooms.contains (l.bedrooms.getD 0))

/-- The affordability predicate (line 331):
`price is None or payment_std is None or payment_std == 0 or price <= payment_std`. -/
def is_affordable (l : Listing) : Bool :=
  match l.price, l.payment_standard with
  | none, _ => true
  | _, none => true
  | some price, some payment_std => payment_std == 0 || decide (price ≤ (payment_std : Int))

/-- The affordable list built by the loop at lines 327-333. -/
def affordable_listings (search_bedrooms : List Nat) (ls : List Listing) : List Listing :=
  (size_filter search_bedrooms ls).filter is_affordable

/-- The sort key of line 335: `x.get("price") or 0` (null price counts as 0;
`or` also maps a 0 price to 0, which is the same value). -/
def sort_key (l : Listing) : Int := l.price.getD 0

/-- Comparison used by the final sort: ascending by `sort_key`. -/
def price_le (a b : Listing) : Prop := sort_key a ≤ sort_key b

instance : DecidableRel price_le := fun a b => by unfold price_le; infer_instance

instance : IsTotal Listing price_le := ⟨fun a b => Int.le_total _ _⟩

instance : IsTrans Listing price_le := ⟨fun _ _ _ => Int.le_trans⟩

/-- Line 335: `affordable_listings.sort(key=lambda x: x.get("price") or 0)`.
Python's list sort is stable and ascending; it is embedded as the stable
`List.insertionSort` under `price_le`. -/
def sorted_affordable (search_bedrooms : List Nat) (ls : List Listing) : List Listing :=
  (affordable_listings search_bedrooms ls).insertionSort price_le

/-- The ZIP index named by the spec: the keys of `COOK_ZIP_TO_RANGE` for
cook and of the direct amount tables for the other counties. -/
def zip_index_keys (county_key : String) : List String :=
  if county_key = "cook" then COOK_ZIP_TO_RANGE.map Prod.fst
  else if county_key = "dupage" then DUPAGE_ZIP_AMOUNTS.map Prod.fst
  else if county_key = "will" then WILL_ZIP_AMOUNTS.map Prod.fst
  else if county_key = "lake" then LAKE_ZIP_AMOUNTS.map Prod.fst
  else []

/-- The four county keys of the registry. -/
def county_keys : List String := ["cook", "dupage", "will", "lake"]

/-- The decision rule the specification states for `resolve_location`,
written from its words and applied verbatim to the given token: a token of
exactly 5 ASCII digits is returned as a singleton iff it is in the region's
ZIP index, and any other token is matched case-insensitively and exactly
against the town table keys. -/
def resolve_location_rule (county_key token : String) : List String :=
  if token.length = 5 && token.data.all Char.isDigit then
    if token ∈ get_all_zip_codes county_key then [token] else []
  else
    match town_map county_key with
    | none => []
    | some m =>
      match m.find? (fun p => pyLower p.1 = pyLower token) with
      | some p => p.2
      | none => []

/-- A bedroom-amount table that has entries for all five bedroom
categories. -/
def amounts_complete (am : List (String × Nat)) : Bool :=
  (am.lookup "studio").isSome && (am.lookup "1br").isSome && (am.lookup "2br").isSome &&
    (am.lookup "3br").isSome && (am.lookup "4br").isSome

/-- A Cook tier letter that resolves to a complete amount table. -/
def letter_ok (range_letter : String) : Bool :=
  (COOK_RANGE_AMOUNTS.lookup range_letter).elim false amounts_complete

/-- A character that is an ASCII digit is not whitespace. -/
theorem not_whitespace_of_digit (c : Char) (h : c.isDigit = true) :
    c.isWhitespace = false := by
  by_contra h'
  have hw : c.isWhitespace = true := by
    cases hws : c.isWhitespace
    · exact absurd hws h'
    · rfl
  simp only [Char.isWhitespace, Bool.or_eq_true, decide_eq_true_eq] at hw
  casesm* _ ∨ _ <;> subst_vars <;> simp [Char.isDigit] at h

/-- Dropping leading whitespace from an all-digit character list is the
identity. -/
theorem ltrimChars_of_digits (l : List Char) (h : l.all Char.isDigit = true) :
    ltrimChars l = l := by
  cases l with
  | nil => rfl
  | cons a as =>
    simp only [List.all_cons, Bool.and_eq_true] at h
    simp [ltrimChars, List.dropWhile_cons, not_whitespace_of_digit a h.1]

/-- Stripping an all-digit string is the identity. -/
theorem pyStrip_of_digits (s : String) (h : s.data.all Char.isDigit = true) :
    pyStrip s = s := by
  have hrev : s.data.reverse.all Char.isDigit = true := by
    simpa using h
  cases s with
  | mk data =>
    simp only [pyStrip, rtrimChars, ltrimChars_of_digits _ h]
    rw [show ltrimChars data.reverse = data.reverse from ltrimChars_of_digits _ hrev]
    simp

/-- Membership in `get_all_zip_codes` is membership among the ZIP index
keys (the sort is a permutation). -/
theorem mem_get_all_zip_codes (c z : String) (h : pyLower c = c) :
    z ∈ get_all_zip_codes c ↔ z ∈ zip_index_keys c := by
  simp only [get_all_zip_codes, zip_index_keys, h]
  split_ifs <;> first | exact List.mem_insertionSort zip_le | rfl

/-- On a token of five ASCII digits, `resolve_location` is the ZIP branch:
a singleton exactly for ZIP index members. -/
theorem resolve_location_digits (c z : String) (hlow : pyLower c = c)
    (h5 : z.length = 5) (hdig : z.data.all Char.isDigit = true) :
    resolve_location c z = if z ∈ get_all_zip_codes c then [z] else [] := by
  have hstrip : pyStrip z = z := pyStrip_of_digits z hdig
  have hne : z.data ≠ [] := by
    intro hnil
    have : z.length = 0 := by simp [String.length, hnil]
    omega
  simp only [resolve_location, hlow, hstrip, is_valid_zip, pyIsDigit, h5, hdig, hne,
    ne_eq, not_false_eq_true, decide_True, Bool.and_self, if_true, Bool.and_true]
  split_ifs with hmem h1 h2 <;> simp_all

/-- C9: for a county key among cook, dupage, will, lake and a token of
exactly 5 ASCII digits, `resolve_location` returns the singleton of that
token exactly when the token is one of `get_all_zip_codes` for the county
(equivalently, when `is_valid_zip` holds), and the empty list otherwise. -/
theorem C9_resolve_zip_roundtrip (c z : String) (hc : c ∈ county_keys)
    (h5 : z.length = 5) (hdig : z.data.all Char.isDigit = true) :
    (resolve_location c z = [z] ↔ z ∈ get_all_zip_codes c) ∧
    (z ∉ get_all_zip_codes c → resolve_location c z = []) ∧
    (is_valid_zip c z = true ↔ z ∈ get_all_zip_codes c) := by
  have hlow : pyLower c = c := by
    fin_cases hc <;> decide
  have hres := resolve_location_digits c z hlow h5 hdig
  have hvalid : is_valid_zip c z = true ↔ z ∈ get_all_zip_codes c := by
    simp [is_valid_zip, pyStrip_of_digits z hdig]
  refine ⟨?_, ?_, hvalid⟩
  · rw [hres]
    split_ifs with hmem <;> simp [hmem]
  · intro hmem
    rw [hres, if_neg hmem]

set_option maxRecDepth 1000000 in
/-- Witness for C9 at the Cook County ZIP 60601. -/
theorem C9_resolve_zip_roundtrip_witness :
    resolve_location "cook" "60601" = ["60601"] :=
  (C9_resolve_zip_roundtrip "cook" "60601" (by decide) (by decide) (by decide)).1.mpr
    (by decide)

set_option maxRecDepth 1000000 in
/-- C8: in the Cook tiered region, `resolve_location` maps the token
"60601" to the singleton `["60601"]`, the ZIP index maps 60601 to tier J,
and the 1-bedroom payment standard there is 1435 dollars. -/
theorem C8_cook_60601_tier_J :
    resolve_location "cook" "60601" = ["60601"] ∧
    COOK_ZIP_TO_RANGE.lookup "60601" = some "J" ∧
    get_payment_standard "cook" "60601" 1 = some 1435 := by
  refine ⟨by decide, by decide, by decide⟩

/-- A key that occurs among the keys of an association list has a `lookup`
value. -/
theorem lookup_isSome_of_mem_keys {α β : Type} [BEq α] [LawfulBEq α]
    (l : List (α × β)) (a : α) (h : a ∈ l.map Prod.fst) :
    ∃ v, l.lookup a = some v := by
  induction l with
  | nil => simp at h
  | cons p t ih =>
    by_cases hk : a == p.1
    · exact ⟨p.2, by simp [List.lookup, hk]⟩
    · have : a ∈ t.map Prod.fst := by
        simp only [List.map_cons, List.mem_cons] at h
        rcases h with h | h
        · exact absurd (beq_iff_eq.mpr h) (by simpa using hk)
        · exact h
      obtain ⟨v, hv⟩ := ih this
      exact ⟨v, by simp [List.lookup, hk, hv]⟩

/-- A property holding of every value of an association list holds of any
`lookup` result. -/
theorem lookup_prop {α β : Type} [BEq α] [LawfulBEq α] (q : β → Prop)
    (l : List (α × β)) (a : α) (v : β) (hall : ∀ p ∈ l, q p.2)
    (hl : l.lookup a = some v) : q v := by
  induction l with
  | nil => simp [List.lookup] at hl
  | cons p t ih =>
    by_cases hk : a == p.1
    · simp [List.lookup, hk] at hl
      exact hl ▸ hall p (by simp)
    · simp only [List.lookup, hk] at hl
      exact ih (fun p hp => hall p (List.mem_cons_of_mem _ hp)) hl

/-- `lookup` misses any key outside a superset of the key column. -/
theorem lookup_none {α β : Type} [BEq α] [LawfulBEq α]
    (l : List (α × β)) (ks : List α) (a : α) (hall : ∀ p ∈ l, p.1 ∈ ks)
    (hk : a ∉ ks) : l.lookup a = none := by
  induction l with
  | nil => rfl
  | cons p t ih =>
    by_cases hbe : a == p.1
    · exact absurd (beq_iff_eq.mp hbe ▸ hall p (by simp)) hk
    · simp only [List.lookup, hbe]
      exact ih (fun p hp => hall p (List.mem_cons_of_mem _ hp))

/-- A complete amount table answers every bedroom count up to 4. -/
theorem amounts_complete_lookup (am : List (String × Nat))
    (h : amounts_complete am = true) (b : Nat) (hb : b ≤ 4) :
    (am.lookup (bedroom_key b)).isSome = true := by
  simp only [amounts_complete, Bool.and_eq_true] at h
  interval_cases b
  · exact h.1.1.1.1
  · exact h.1.1.1.2
  · exact h.1.1.2
  · exact h.1.2
  · exact h.2

/-- `get_payment_standard` on the cook key reduces to the tier chain. -/
theorem get_payment_standard_cook (z : String) (b : Nat) :
    get_payment_standard "cook" z b =
      match COOK_ZIP_TO_RANGE.lookup (pyStrip z) with
      | none => none
      | some range_letter =>
        match COOK_RANGE_AMOUNTS.lookup range_letter with
        | none => none
        | some amounts => amounts.lookup (bedroom_key b) := rfl

/-- `get_payment_standard` on the dupage key reduces to the direct table. -/
theorem get_payment_standard_dupage (z : String) (b : Nat) :
    get_payment_standard "dupage" z b =
      match DUPAGE_ZIP_AMOUNTS.lookup (pyStrip z) with
      | none => none
      | some amounts => amounts.lookup (bedroom_key b) := rfl

/-- `get_payment_standard` on the will key reduces to the direct table. -/
theorem get_payment_standard_will (z : String) (b : Nat) :
    get_payment_standard "will" z b =
      match WILL_ZIP_AMOUNTS.lookup (pyStrip z) with
      | none => none
      | some amounts => amounts.lookup (bedroom_key b) := rfl

/-- `get_payment_standard` on the lake key reduces to the direct table. -/
theorem get_payment_standard_lake (z : String) (b : Nat) :
    get_payment_standard "lake" z b =
      match LAKE_ZIP_AMOUNTS.lookup (pyStrip z) with
      | none => none
      | some amounts => amounts.lookup (bedroom_key b) := rfl

set_option maxRecDepth 1000000 in
/-- Every tier letter of the cook ZIP index has a complete amount row. -/
theorem cook_letters_ok : ∀ p ∈ COOK_ZIP_TO_RANGE, letter_ok p.2 = true := by decide

set_option maxRecDepth 1000000 in
/-- Every dupage amount row is complete. -/
theorem dupage_rows_ok : ∀ p ∈ DUPAGE_ZIP_AMOUNTS, amounts_complete p.2 = true := by decide

set_option maxRecDepth 1000000 in
/-- Every will amount row is complete. -/
theorem will_rows_ok : ∀ p ∈ WILL_ZIP_AMOUNTS, amounts_complete p.2 = true := by decide

set_option maxRecDepth 1000000 in
/-- Every lake amount row is complete. -/
theorem lake_rows_ok : ∀ p ∈ LAKE_ZIP_AMOUNTS, amounts_complete p.2 = true := by decide

set_option maxRecDepth 1000000 in
/-- Every cook ZIP index key is an all-digit string. -/
theorem cook_keys_digits : ∀ p ∈ COOK_ZIP_TO_RANGE, p.1.data.all Char.isDigit = true := by decide

set_option maxRecDepth 1000000 in
/-- Every dupage ZIP index key is an all-digit string. -/
theorem dupage_keys_digits : ∀ p ∈ DUPAGE_ZIP_AMOUNTS, p.1.data.all Char.isDigit = true := by
  decide

set_option maxRecDepth 1000000 in
/-- Every will ZIP index key is an all-digit string. -/
theorem will_keys_digits : ∀ p ∈ WILL_ZIP_AMOUNTS, p.1.data.all Char.isDigit = true := by decide

set_option maxRecDepth 1000000 in
/-- Every lake ZIP index key is an all-digit string. -/
theorem lake_keys_digits : ∀ p ∈ LAKE_ZIP_AMOUNTS, p.1.data.all Char.isDigit = true := by decide

/-- Every ZIP index key is strip-invariant (it is an all-digit string). -/
theorem zip_index_keys_strip (c z : String) (hc : c ∈ county_keys)
    (hz : z ∈ zip_index_keys c) : pyStrip z = z := by
  apply pyStrip_of_digits
  fin_cases hc <;>
    simp only [zip_index_keys, if_true, if_false, reduceIte] at hz <;>
    obtain ⟨p, hp, rfl⟩ := List.mem_map.mp hz
  · exact cook_keys_digits p hp
  · exact dupage_keys_digits p hp
  · exact will_keys_digits p hp
  · exact lake_keys_digits p hp

/-- Shared core of C7 and C10: every ZIP index key has a defined payment
standard for every bedroom count up to 4. -/
theorem payment_standard_defined (c z : String) (hc : c ∈ county_keys)
    (hz : z ∈ zip_index_keys c) (b : Nat) (hb : b ≤ 4) :
    (get_payment_standard c z b).isSome = true := by
  have hstrip : pyStrip z = z := zip_index_keys_strip c z hc hz
  fin_cases hc <;> simp only [zip_index_keys, reduceIte] at hz
  · obtain ⟨L, hL⟩ := lookup_isSome_of_mem_keys COOK_ZIP_TO_RANGE z hz
    have hok : letter_ok L = true :=
      lookup_prop (fun v => letter_ok v = true) COOK_ZIP_TO_RANGE z L cook_letters_ok hL
    cases hAm : COOK_RANGE_AMOUNTS.lookup L with
    | none => rw [letter_ok, hAm] at hok; simp at hok
    | some am =>
      rw [letter_ok, hAm] at hok
      simp only [get_payment_standard_cook, hstrip, hL, hAm]
      exact amounts_complete_lookup am hok b hb
  · obtain ⟨am, hAm⟩ := lookup_isSome_of_mem_keys DUPAGE_ZIP_AMOUNTS z hz
    simp only [get_payment_standard_dupage, hstrip, hAm]
    exact amounts_complete_lookup am
      (lookup_prop (fun v => amounts_complete v = true) _ z am dupage_rows_ok hAm) b hb
  · obtain ⟨am, hAm⟩ := lookup_isSome_of_mem_keys WILL_ZIP_AMOUNTS z hz
    simp only [get_payment_standard_will, hstrip, hAm]
    exact amounts_complete_lookup am
      (lookup_prop (fun v => amounts_complete v = true) _ z am will_rows_ok hAm) b hb
  · obtain ⟨am, hAm⟩ := lookup_isSome_of_mem_keys LAKE_ZIP_AMOUNTS z hz
    simp only [get_payment_standard_lake, hstrip, hAm]
    exact amounts_complete_lookup am
      (lookup_prop (fun v => amounts_complete v = true) _ z am lake_rows_ok hAm) b hb

/-- C7: for every county key and every ZIP in that county's ZIP index
(`COOK_ZIP_TO_RANGE` for cook, the direct amount tables otherwise),
`get_payment_standard` is defined for every bedroom count in 0..4. -/
theorem C7_reference_data_complete (c z : String) (hc : c ∈ county_keys)
    (hz : z ∈ zip_index_keys c) (b : Nat) (hb : b ≤ 4) :
    (get_payment_standard c z b).isSome = true :=
  payment_standard_defined c z hc hz b hb

set_option maxRecDepth 1000000 in
/-- Witness for C7 at cook, ZIP 60601, one bedroom. -/
theorem C7_reference_data_complete_witness :
    (get_payment_standard "cook" "60601" 1).isSome = true :=
  C7_reference_data_complete "cook" "60601" (by decide) (by decide) 1 (by decide)

set_option maxRecDepth 1000000 in
/-- Every ZIP listed under a cook town is a cook ZIP index key. -/
theorem cook_town_zips_ok :
    ∀ p ∈ COOK_TOWN_TO_ZIPS, ∀ z ∈ p.2, z ∈ COOK_ZIP_TO_RANGE.map Prod.fst := by decide

set_option maxRecDepth 1000000 in
/-- Every ZIP listed under a dupage town is a dupage ZIP index key. -/
theorem dupage_town_zips_ok :
    ∀ p ∈ DUPAGE_TOWN_TO_ZIPS, ∀ z ∈ p.2, z ∈ DUPAGE_ZIP_AMOUNTS.map Prod.fst := by decide

set_option maxRecDepth 1000000 in
/-- Every ZIP listed under a will town is a will ZIP index key. -/
theorem will_town_zips_ok :
    ∀ p ∈ WILL_TOWN_TO_ZIPS, ∀ z ∈ p.2, z ∈ WILL_ZIP_AMOUNTS.map Prod.fst := by decide

set_option maxRecDepth 1000000 in
/-- Every ZIP listed under a lake town is a lake ZIP index key. -/
theorem lake_town_zips_ok :
    ∀ p ∈ LAKE_TOWN_TO_ZIPS, ∀ z ∈ p.2, z ∈ LAKE_ZIP_AMOUNTS.map Prod.fst := by decide

/-- C10: for every county, every ZIP appearing in a town's entry of the
county's town table is a key of the county's ZIP index, so a ZIP obtained
by resolving a town name has a defined payment standard in that county. -/
theorem C10_town_zips_in_index (c : String) (hc : c ∈ county_keys)
    (m : List (String × List String)) (hm : town_map c = some m)
    (p : String × List String) (hp : p ∈ m) (z : String) (hz : z ∈ p.2) :
    z ∈ zip_index_keys c ∧ ∀ b, b ≤ 4 → (get_payment_standard c z b).isSome = true := by
  have hmem : z ∈ zip_index_keys c := by
    fin_cases hc
    · obtain rfl : m = COOK_TOWN_TO_ZIPS := (Option.some.inj hm).symm
      exact cook_town_zips_ok p hp z hz
    · obtain rfl : m = DUPAGE_TOWN_TO_ZIPS := (Option.some.inj hm).symm
      exact dupage_town_zips_ok p hp z hz
    · obtain rfl : m = WILL_TOWN_TO_ZIPS := (Option.some.inj hm).symm
      exact will_town_zips_ok p hp z hz
    · obtain rfl : m = LAKE_TOWN_TO_ZIPS := (Option.some.inj hm).symm
      exact lake_town_zips_ok p hp z hz
  exact ⟨hmem, fun b hb => payment_standard_defined c z hc hmem b hb⟩

set_option maxRecDepth 1000000 in
/-- Witness for C10 at cook, town Alsip, ZIP 60803. -/
theorem C10_town_zips_in_index_witness :
    "60803" ∈ zip_index_keys "cook" ∧
    ∀ b, b ≤ 4 → (get_payment_standard "cook" "60803" b).isSome = true :=
  C10_town_zips_in_index "cook" (by decide) COOK_TOWN_TO_ZIPS rfl
    ("Alsip", ["60803"]) (by decide) "60803" (by decide)

/-- `Nat.toDigitsCore` with positive fuel grows its accumulator. -/
theorem toDigitsCore_length (fuel : Nat) : ∀ (n : Nat) (ds : List Char),
    ds.length + 1 ≤ (Nat.toDigitsCore 10 (fuel + 1) n ds).length := by
  induction fuel with
  | zero =>
    intro n ds
    simp only [Nat.toDigitsCore]
    split <;> simp [Nat.toDigitsCore]
  | succ f ih =>
    intro n ds
    simp only [Nat.toDigitsCore]
    split
    · simp
    · calc ds.length + 1 ≤ (Nat.digitChar (n % 10) :: ds).length + 1 := by simp
        _ ≤ _ := ih (n / 10) _

/-- The decimal representation of a number at least 10 has at least two
characters. -/
theorem repr_length_ge_two (n : Nat) (h : 10 ≤ n) : 2 ≤ (Nat.repr n).data.length := by
  obtain ⟨m, rfl⟩ : ∃ m, n = m + 1 := ⟨n - 1, by omega⟩
  show 2 ≤ (Nat.toDigits 10 (m + 1)).length
  simp only [Nat.toDigits, Nat.toDigitsCore]
  split
  · simp only [List.length_cons, List.length_nil]
    omega
  · split
    · simp
    · obtain ⟨f, rfl⟩ : ∃ f, m = f + 1 := ⟨m - 1, by omega⟩
      exact le_trans (by norm_num) (toDigitsCore_length f _ _)

/-- No number above 4 prints as a single digit 1..4. -/
theorem repr_notin_digits (b : Nat) (hb : 4 < b) :
    Nat.repr b ∉ (["1", "2", "3", "4"] : List String) := by
  intro hmem
  by_cases hlt : b < 10
  · interval_cases b <;> revert hmem <;> decide
  · have h2 := repr_length_ge_two b (by omega)
    simp only [List.mem_cons, List.not_mem_nil, or_false] at hmem
    rcases hmem with h | h | h | h <;> rw [h] at h2 <;> exact absurd h2 (by decide)

/-- For a bedroom count above 4 the bedroom-category key `f"{b}br"` is not
one of the five category keys the amount tables carry. -/
theorem bedroom_key_notin (b : Nat) (hb : 4 < b) :
    bedroom_key b ∉ (["studio", "1br", "2br", "3br", "4br"] : List String) := by
  intro hmem
  have hkey : bedroom_key b = Nat.repr b ++ "br" := if_neg (by omega)
  rw [hkey] at hmem
  simp only [List.mem_cons, List.not_mem_nil, or_false] at hmem
  have hinj : ∀ d : Char, Nat.repr b ++ "br" = ⟨[d, 'b', 'r']⟩ → (Nat.repr b).data = [d] := by
    intro d h
    have hd : (Nat.repr b).data ++ ['b', 'r'] = [d] ++ ['b', 'r'] := by
      have := congrArg String.data h
      rw [String.data_append] at this
      exact this
    exact (List.append_inj' hd rfl).1
  rcases hmem with h | h | h | h | h
  · -- "studio": the suffixes of equal length disagree
    have hd : (Nat.repr b).data ++ ['b', 'r'] = ['s', 't', 'u', 'd'] ++ ['i', 'o'] := by
      have := congrArg String.data h
      rw [String.data_append] at this
      exact this
    exact absurd (List.append_inj' hd rfl).2 (by decide)
  · exact repr_notin_digits b hb (by rw [String.ext (hinj '1' h)]; decide)
  · exact repr_notin_digits b hb (by rw [String.ext (hinj '2' h)]; decide)
  · exact repr_notin_digits b hb (by rw [String.ext (hinj '3' h)]; decide)
  · exact repr_notin_digits b hb (by rw [String.ext (hinj '4' h)]; decide)

/-- An amount table whose keys are among the five category keys misses the
key of any bedroom count above 4. -/
theorem amounts_lookup_none (am : List (String × Nat))
    (hall : ∀ p ∈ am, p.1 ∈ (["studio", "1br", "2br", "3br", "4br"] : List String))
    (b : Nat) (hb : 4 < b) : am.lookup (bedroom_key b) = none :=
  lookup_none am _ _ hall (bedroom_key_notin b hb)

set_option maxRecDepth 1000000 in
/-- The cook amount rows carry only the five category keys. -/
theorem cook_amount_keys : ∀ p ∈ COOK_RANGE_AMOUNTS, ∀ q ∈ p.2,
    q.1 ∈ (["studio", "1br", "2br", "3br", "4br"] : List String) := by decide

set_option maxRecDepth 1000000 in
/-- The dupage amount rows carry only the five category keys. -/
theorem dupage_amount_keys : ∀ p ∈ DUPAGE_ZIP_AMOUNTS, ∀ q ∈ p.2,
    q.1 ∈ (["studio", "1br", "2br", "3br", "4br"] : List String) := by decide

set_option maxRecDepth 1000000 in
/-- The will amount rows carry only the five category keys. -/
theorem will_amount_keys : ∀ p ∈ WILL_ZIP_AMOUNTS, ∀ q ∈ p.2,
    q.1 ∈ (["studio", "1br", "2br", "3br", "4br"] : List String) := by decide

set_option maxRecDepth 1000000 in
/-- The lake amount rows carry only the five category keys. -/
theorem lake_amount_keys : ∀ p ∈ LAKE_ZIP_AMOUNTS, ∀ q ∈ p.2,
    q.1 ∈ (["studio", "1br", "2br", "3br", "4br"] : List String) := by decide

set_option maxRecDepth 1000000 in
/-- Counterexample to C1: at cook, ZIP 60601, a bedroom count of 5 yields
`none` (the key "5br" misses every amount row), while the 4BR amount is
2475 dollars; the two results differ, so bedroom counts above 4 are not
clamped to the 4BR category. -/
theorem C1_counterexample :
    get_payment_standard "cook" "60601" 5 = none ∧
    get_payment_standard "cook" "60601" 4 = some 2475 ∧
    get_payment_standard "cook" "60601" 5 ≠ get_payment_standard "cook" "60601" 4 :=
  ⟨by decide, by decide, by decide⟩

/-- C1 as amended: for every county key, every ZIP and every bedroom count
above 4, `get_payment_standard` returns `none` (a lookup miss: the bedroom
key `f"{b}br"` is absent from every amount row), rather than the 4BR
amount. -/
theorem C1_above_4br_is_none (c z : String) (b : Nat) (hb : 4 < b) :
    get_payment_standard c z b = none := by
  simp only [get_payment_standard]
  split_ifs
  · show (match COOK_ZIP_TO_RANGE.lookup (pyStrip z) with
      | none => none
      | some range_letter =>
        match COOK_RANGE_AMOUNTS.lookup range_letter with
        | none => none
        | some amounts => amounts.lookup (bedroom_key b)) = none
    cases hL : COOK_ZIP_TO_RANGE.lookup (pyStrip z) with
    | none => rfl
    | some L =>
      show (match COOK_RANGE_AMOUNTS.lookup L with
        | none => none
        | some amounts => amounts.lookup (bedroom_key b)) = none
      cases hAm : COOK_RANGE_AMOUNTS.lookup L with
      | none => rfl
      | some am =>
        exact amounts_lookup_none am
          (lookup_prop (fun v => ∀ q ∈ v, q.1 ∈ _) COOK_RANGE_AMOUNTS L am cook_amount_keys hAm)
          b hb
  · show (match DUPAGE_ZIP_AMOUNTS.lookup (pyStrip z) with
      | none => none
      | some amounts => amounts.lookup (bedroom_key b)) = none
    cases hAm : DUPAGE_ZIP_AMOUNTS.lookup (pyStrip z) with
    | none => rfl
    | some am =>
      exact amounts_lookup_none am
        (lookup_prop (fun v => ∀ q ∈ v, q.1 ∈ _) DUPAGE_ZIP_AMOUNTS _ am dupage_amount_keys hAm)
        b hb
  · show (match WILL_ZIP_AMOUNTS.lookup (pyStrip z) with
      | none => none
      | some amounts => amounts.lookup (bedroom_key b)) = none
    cases hAm : WILL_ZIP_AMOUNTS.lookup (pyStrip z) with
    | none => rfl
    | some am =>
      exact amounts_lookup_none am
        (lookup_prop (fun v => ∀ q ∈ v, q.1 ∈ _) WILL_ZIP_AMOUNTS _ am will_amount_keys hAm)
        b hb
  · show (match LAKE_ZIP_AMOUNTS.lookup (pyStrip z) with
      | none => none
      | some amounts => amounts.lookup (bedroom_key b)) = none
    cases hAm : LAKE_ZIP_AMOUNTS.lookup (pyStrip z) with
    | none => rfl
    | some am =>
      exact amounts_lookup_none am
        (lookup_prop (fun v => ∀ q ∈ v, q.1 ∈ _) LAKE_ZIP_AMOUNTS _ am lake_amount_keys hAm)
        b hb
  · rfl

set_option maxRecDepth 1000000 in
/-- Witness for the amended C1 at cook, ZIP 60603, six bedrooms. -/
theorem C1_above_4br_is_none_witness :
    get_payment_standard "cook" "60603" 6 = none :=
  C1_above_4br_is_none "cook" "60603" 6 (by decide)

/-- A string of length 5 has a non-empty character list. -/
theorem data_ne_nil_of_length5 (s : String) (h : s.length = 5) : s.data ≠ [] := by
  intro hnil
  have : s.length = 0 := by simp [String.length, hnil]
  omega

/-- `resolve_location` computes the specification's decision rule on the
whitespace-stripped token. -/
theorem resolve_location_eq_rule (c loc : String) (hlow : pyLower c = c) :
    resolve_location c loc = resolve_location_rule c (pyStrip loc) := by
  simp only [resolve_location, resolve_location_rule, hlow]
  by_cases h5 : (pyStrip loc).length = 5
  · have hne := data_ne_nil_of_length5 _ h5
    by_cases hdig : (pyStrip loc).data.all Char.isDigit = true
    · have hstrip2 := pyStrip_of_digits _ hdig
      simp only [pyIsDigit, hne, ne_eq, not_false_eq_true, decide_True, Bool.true_and, hdig,
        h5, Bool.and_true, Bool.and_self, if_true, is_valid_zip, hstrip2, decide_eq_true_eq]
    · rw [if_neg (by simp [pyIsDigit, hdig]), if_neg (by simp [hdig])]
  · rw [if_neg (by simp [h5]), if_neg (by simp [h5])]

set_option maxRecDepth 1000000 in
/-- Counterexample to C3: on the token "60601 " (trailing space) the code
returns `["60601"]`, while the claim's decision rule — which treats only a
token of exactly 5 ASCII digits as a ZIP and otherwise requires an exact
case-insensitive town-name match — returns the empty sequence: the code
strips surrounding whitespace first, which the stated rule does not. -/
theorem C3_counterexample :
    resolve_location "cook" "60601 " = ["60601"] ∧
    resolve_location_rule "cook" "60601 " = [] ∧
    resolve_location "cook" "60601 " ≠ resolve_location_rule "cook" "60601 " :=
  ⟨by decide, by decide, by decide⟩

set_option maxRecDepth 1000000 in
/-- C3 as amended: for each county key, `resolve_location` is total and
follows the stated decision rule applied to the whitespace-stripped token:
a stripped token of exactly 5 ASCII digits resolves to itself exactly when
it is in the region's ZIP index (in particular "00000" resolves to the
empty sequence, not an error), and any other stripped token is matched
case-insensitively and exactly against the town table. -/
theorem C3_resolve_follows_rule_after_strip (c : String) (hc : c ∈ county_keys)
    (loc : String) :
    resolve_location c loc = resolve_location_rule c (pyStrip loc) ∧
    resolve_location c "00000" = [] := by
  have hlow : pyLower c = c := by fin_cases hc <;> decide
  refine ⟨resolve_location_eq_rule c loc hlow, ?_⟩
  fin_cases hc <;> decide

set_option maxRecDepth 1000000 in
/-- Witness for the amended C3 at cook with the token " Chicago". -/
theorem C3_resolve_follows_rule_after_strip_witness :
    resolve_location "cook" " Chicago" = resolve_location_rule "cook" (pyStrip " Chicago") ∧
    resolve_location "cook" "00000" = [] :=
  C3_resolve_follows_rule_after_strip "cook" (by decide) " Chicago"

/-- C4: the standard attached to a listing is the one at the lesser of the
unit bedroom count (null defaulting to 0) and the voucher bedroom count;
in particular a 2-bedroom unit under a 1-bedroom voucher gets the
1-bedroom standard. -/
theorem C4_lesser_of_rule (c z : String) (v : Nat) (l : Listing) :
    (annotate c z v l).payment_standard =
      get_payment_standard c z (min (l.bedrooms.getD 0) v) ∧
    (l.bedrooms = some 2 → v = 1 →
      (annotate c z v l).payment_standard = get_payment_standard c z 1) := by
  refine ⟨rfl, ?_⟩
  rintro hb rfl
  simp [annotate, hb]

set_option maxRecDepth 1000000 in
/-- Witness for C4: a 2-bedroom listing under a 1-bedroom voucher in cook
60601 is priced against the 1-bedroom standard. -/
theorem C4_lesser_of_rule_witness :
    (annotate "cook" "60601" 1 (Listing.mk (some 1500) (some 2) "" none)).payment_standard =
      get_payment_standard "cook" "60601" 1 :=
  (C4_lesser_of_rule "cook" "60601" 1 (Listing.mk (some 1500) (some 2) "" none)).2 rfl rfl

/-- The affordability predicate spelled out over the nullable fields. -/
theorem is_affordable_iff (l : Listing) : is_affordable l = true ↔
    (l.price = none ∨ l.payment_standard = none ∨ l.payment_standard = some 0 ∨
      ∃ p s, l.price = some p ∧ l.payment_standard = some s ∧ p ≤ (s : Int)) := by
  cases hp : l.price with
  | none => simp [is_affordable, hp]
  | some p =>
    cases hs : l.payment_standard with
    | none => simp [is_affordable, hp, hs]
    | some s =>
      simp [is_affordable, hp, hs, Bool.or_eq_true, beq_iff_eq, decide_eq_true_eq]

/-- C5: a listing reaches the rendered affordable sequence iff it passes
the size filter and its price is null, or its standard is null, or its
standard is zero, or its price is at most its standard; in particular
every size-matching listing with a null price is kept (fail-open). -/
theorem C5_fail_open (sb : List Nat) (ls : List Listing) (l : Listing) :
    (l ∈ sorted_affordable sb ls ↔
      l ∈ size_filter sb ls ∧
        (l.price = none ∨ l.payment_standard = none ∨ l.payment_standard = some 0 ∨
          ∃ p s, l.price = some p ∧ l.payment_standard = some s ∧ p ≤ (s : Int))) ∧
    (l ∈ size_filter sb ls → l.price = none → l ∈ sorted_affordable sb ls) := by
  simp only [sorted_affordable, List.mem_insertionSort, affordable_listings, List.mem_filter]
  refine ⟨?_, ?_⟩
  · rw [is_affordable_iff]
  · intro hsz hp
    exact ⟨hsz, (is_affordable_iff l).mpr (Or.inl hp)⟩

/-- Witness for C5: a null-price listing with a standard of 700 is kept. -/
theorem C5_fail_open_witness :
    Listing.mk none (some 1) "" (some 700) ∈
      sorted_affordable [1] [Listing.mk none (some 1) "" (some 700)] :=
  (C5_fail_open [1] [Listing.mk none (some 1) "" (some 700)]
      (Listing.mk none (some 1) "" (some 700))).2 (by decide) rfl

/-- Counterexample to C2: a size-matching listing priced at 2000 against a
standard of 1000 survives the size filter but is absent from the affordable
sequence — the only listing sequence the page builds — so the affordable
and over-budget outputs do not together preserve all size-matching
listings: no over-budget sequence is produced at all. -/
theorem C2_counterexample :
    size_filter [1] [Listing.mk (some 2000) (some 1) "60601" (some 1000)] =
      [Listing.mk (some 2000) (some 1) "60601" (some 1000)] ∧
    sorted_affordable [1] [Listing.mk (some 2000) (some 1) "60601" (some 1000)] = [] :=
  ⟨rfl, rfl⟩

/-- C2 as amended: the affordability stage keeps exactly the size-matching
listings that satisfy the affordability predicate, each exactly as often as
it occurs after the size filter, and discards the rest — no over-budget
sequence is produced alongside the affordable one. -/
theorem C2_no_partition (sb : List Nat) (ls : List Listing) (l : Listing) :
    (sorted_affordable sb ls).count l =
      if is_affordable l then (size_filter sb ls).count l else 0 := by
  rw [sorted_affordable, List.Perm.count_eq (List.perm_insertionSort price_le _) l]
  rw [affordable_listings]
  by_cases ha : is_affordable l = true
  · rw [if_pos ha, List.count_filter ha]
  · rw [if_neg ha]
    apply List.count_eq_zero.mpr
    intro hmem
    exact ha (List.mem_filter.mp hmem).2

/-- C6: the rendered sequence is sorted ascending by price with null priced
as 0, it is a permutation of the affordable listings, and any two
affordable listings in input order whose keys are ordered keep their
relative order (stability). -/
theorem C6_sorted_stable (sb : List Nat) (ls : List Listing) :
    List.Sorted price_le (sorted_affordable sb ls) ∧
    (sorted_affordable sb ls).Perm (affordable_listings sb ls) ∧
    ∀ a b : Listing, price_le a b → [a, b].Sublist (affordable_listings sb ls) →
      [a, b].Sublist (sorted_affordable sb ls) := by
  refine ⟨List.sorted_insertionSort price_le _, List.perm_insertionSort price_le _, ?_⟩
  intro a b hab hsub
  exact List.pair_sublist_insertionSort hab hsub

/-- Witness for C6: two equal-price listings keep their input order. -/
theorem C6_sorted_stable_witness :
    [Listing.mk (some 5) none "" none, Listing.mk (some 5) (some 1) "" none].Sublist
      (sorted_affordable []
        [Listing.mk (some 5) none "" none, Listing.mk (some 5) (some 1) "" none]) :=
  (C6_sorted_stable [] [Listing.mk (some 5) none "" none,
      Listing.mk (some 5) (some 1) "" none]).2.2 _ _ (by decide) (List.Sublist.refl _)
